import Mathlib

/-!
Shallow embedding of `src/dist/index.js` (gopeed-douyin plugin).

The program resolves a Douyin video URL to a direct download URL by
trying three upstream resolver adapters in order, then packages the
result.  Network effects (fetch outcomes) are modelled as explicit
oracle values passed to the embedded functions; `Date.now()` is an
explicit `now : Nat` parameter; JavaScript falsiness of strings is
modelled by the empty string and of numbers by `0`.
-/

/-- JS `a || b` for strings: `a` when truthy (non-empty), else `b`. -/
def jsOr (a b : String) : String :=
  if a = "" then b else a

/-- `l` starts with `p` (list-level `String.prototype.startsWith`). -/
def startsWithList : List Char → List Char → Bool
  | _, [] => true
  | [], _ :: _ => false
  | c :: l, p :: ps => c == p && startsWithList l ps

/-- JS `s.startsWith(p)`. -/
def strStartsWith (s p : String) : Bool :=
  startsWithList s.data p.data

/-- `pat` occurs as a contiguous run inside `l`. -/
def containsSub : List Char → List Char → Bool
  | [], pat => startsWithList [] pat
  | c :: rest, pat => startsWithList (c :: rest) pat || containsSub rest pat

/-- JS `s.includes(pat)`. -/
def jsIncludes (s pat : String) : Bool :=
  containsSub s.data pat.data

/-- Characters replaced by `_` in `sanitizeFilename`
(the regex class `[<>:"/\\|?*]` at line 262 of the source). -/
def isIllegalFilenameChar (c : Char) : Bool :=
  c == '<' || c == '>' || c == ':' || c == '"' || c == '/' ||
  c == '\\' || c == '|' || c == '?' || c == '*'

/-- The whitespace class of JavaScript `\s` (and `String.prototype.trim`). -/
def isJsWs (c : Char) : Bool :=
  c == '\t' || c == '\n' || c.toNat == 11 || c.toNat == 12 || c == '\r' ||
  c == ' ' || c.toNat == 0xa0 || c.toNat == 0x1680 ||
  (0x2000 ≤ c.toNat && c.toNat ≤ 0x200a) ||
  c.toNat == 0x2028 || c.toNat == 0x2029 || c.toNat == 0x202f ||
  c.toNat == 0x205f || c.toNat == 0x3000 || c.toNat == 0xfeff

/-- `.replace(/\s+/g, ' ')`: each maximal whitespace run becomes one space.
`prevWs` records whether the previous input character was whitespace
(i.e. whether we are inside a run whose space was already emitted). -/
def collapseWsAux : Bool → List Char → List Char
  | _, [] => []
  | prevWs, c :: rest =>
    if isJsWs c then
      if prevWs then collapseWsAux true rest
      else ' ' :: collapseWsAux true rest
    else c :: collapseWsAux false rest

/-- Drop trailing whitespace (the right half of `String.prototype.trim`). -/
def trimRightL (l : List Char) : List Char :=
  (l.reverse.dropWhile isJsWs).reverse

/-- `sanitizeFilename` (source lines 259-266): replace illegal filename
characters by `_`, collapse whitespace runs to a single space, trim,
then `.substring(0, 200)`. -/
def sanitizeFilename (filename : String) : String :=
  let replaced := filename.data.map (fun c => if isIllegalFilenameChar c then '_' else c)
  let collapsed := collapseWsAux false replaced
  let trimmed := trimRightL (collapsed.dropWhile isJsWs)
  String.mk (trimmed.take 200)

/-- The normalized video record produced by a successful adapter call. -/
structure VideoInfo where
  title : String
  downloadUrl : String
  cover : String
  author : String
  duration : Nat
  filename : String
deriving DecidableEq

/-- `resolveRedirect` (source lines 68-92).  The HEAD fetch is modelled by
the oracle `net` (`.ok finalUrl` for a response, `.error e` for a network
failure / timeout / abort).  The second component of the result records
whether the network was consulted at all.  The function is total: it
never raises. -/
def resolveRedirect (url : String) (net : Except String String) : String × Bool :=
  if jsIncludes url "v.douyin.com" then
    match net with
    | .ok finalUrl => (finalUrl, true)
    | .error _ => (url, true)
  else (url, false)

/-- JSON body shape consumed by `parseWithAPI1`; absent string fields are
the empty string (JS `undefined` is falsy like `''`), absent numbers `0`. -/
structure API1Data where
  url : String
  videoUrl : String
  title : String
  desc : String
  cover : String
  coverUrl : String
  author : String
  nickname : String
  duration : Nat
deriving DecidableEq

/-- JSON body shape consumed by `parseWithAPI2`; `authorNickname` models
`data.author?.nickname` (empty when `author` is absent). -/
structure API2Data where
  nwm_video_url : String
  desc : String
  cover_url : String
  authorNickname : String
  duration : Nat
deriving DecidableEq

/-- JSON body shape consumed by `parseWithAPI3`. -/
structure API3Data where
  code : Int
  url : String
  title : String
  cover : String
  author : String
deriving DecidableEq

/-- JS `response.ok`: HTTP status in the 2xx range. -/
def httpOk (status : Nat) : Bool :=
  200 ≤ status && status < 300

/-- `parseWithAPI1` (source lines 123-164), from the point where an HTTP
response with status `status` and JSON body `data` has arrived;
`now` is `Date.now()`. -/
def parseWithAPI1 (status : Nat) (data : API1Data) (now : Nat) : Except String VideoInfo :=
  if httpOk status then
    if data.url ≠ "" ∨ data.videoUrl ≠ "" then
      .ok { title := jsOr (jsOr data.title data.desc) "抖音视频"
            downloadUrl := jsOr data.url data.videoUrl
            cover := jsOr data.cover data.coverUrl
            author := jsOr (jsOr data.author data.nickname) ""
            duration := data.duration
            filename := "douyin_" ++ toString now ++ ".mp4" }
    else .error "API1返回数据格式异常"
  else .error ("API1 HTTP " ++ toString status)

/-- `parseWithAPI2` (source lines 169-209). -/
def parseWithAPI2 (status : Nat) (data : API2Data) (now : Nat) : Except String VideoInfo :=
  if httpOk status then
    if data.nwm_video_url ≠ "" then
      .ok { title := jsOr data.desc "抖音视频"
            downloadUrl := data.nwm_video_url
            cover := data.cover_url
            author := jsOr data.authorNickname ""
            duration := data.duration
            filename := "douyin_" ++ toString now ++ ".mp4" }
    else .error "API2返回数据格式异常"
  else .error ("API2 HTTP " ++ toString status)

/-- `parseWithAPI3` (source lines 214-254): success is gated on the body
field `code === 200` in addition to the HTTP status. -/
def parseWithAPI3 (status : Nat) (data : API3Data) (now : Nat) : Except String VideoInfo :=
  if httpOk status then
    if data.code = 200 ∧ data.url ≠ "" then
      .ok { title := jsOr data.title "抖音视频"
            downloadUrl := data.url
            cover := jsOr data.cover ""
            author := jsOr data.author ""
            duration := 0
            filename := "douyin_" ++ toString now ++ ".mp4" }
    else .error "API3返回数据格式异常"
  else .error ("API3 HTTP " ++ toString status)

/-- An adapter attempt, as observed by the orchestrator: either the
record it returned or the error it threw (network errors, timeouts and
schema mismatches all surface here as `.error`). -/
abbrev AdapterOutcome := Except String VideoInfo

/-- The loop-body test of `parseWithFallback` fails for this outcome:
the adapter threw, or returned a record with a falsy `downloadUrl`. -/
def adapterFailed : AdapterOutcome → Bool
  | .ok r => r.downloadUrl == ""
  | .error _ => true

/-- `parseWithFallback` (source lines 97-118) over the ordered list of
adapter outcomes: first outcome with a truthy `downloadUrl` wins; thrown
errors are swallowed; exhaustion raises the aggregate error. -/
def parseWithFallback : List AdapterOutcome → Except String VideoInfo
  | [] => .error "所有解析源都失败了"
  | .ok r :: rest => if r.downloadUrl = "" then parseWithFallback rest else .ok r
  | .error _ :: rest => parseWithFallback rest

/-- Number of adapters the fallback loop actually invokes on this list
(the loop stops as soon as an outcome passes the test). -/
def fallbackInvoked : List AdapterOutcome → Nat
  | [] => 0
  | .ok r :: rest => if r.downloadUrl = "" then 1 + fallbackInvoked rest else 1
  | .error _ :: rest => 1 + fallbackInvoked rest

/-- The fixed header set attached to the download request
(source lines 38-44). -/
def douyinHeaders : List (String × String) :=
  [("User-Agent", "Mozilla/5.0 (iPhone; CPU iPhone OS 15_0 like Mac OS X) AppleWebKit/605.1.15 (KHTML, like Gecko) Version/15.0 Mobile/15E148 Safari/604.1"),
   ("Referer", "https://www.douyin.com/"),
   ("Accept", "video/mp4,video/webm,video/*;q=0.9,*/*;q=0.8"),
   ("Accept-Language", "zh-CN,zh;q=0.9,en;q=0.8"),
   ("Range", "bytes=0-")]

/-- The download request inside a file descriptor. -/
structure FileReq where
  url : String
  headers : List (String × String)
deriving DecidableEq

/-- One entry of the result's `files` list. -/
structure FileEntry where
  name : String
  size : Nat
  req : FileReq
deriving DecidableEq

/-- The result's `extra` map. -/
structure ResultExtra where
  cover : String
  author : String
  duration : Nat
  platform : String
deriving DecidableEq

/-- The Resolution Outcome returned to the caller. -/
structure DouyinResult where
  name : String
  files : List FileEntry
  extra : ResultExtra
deriving DecidableEq

/-- The validation and packaging step of the entry point
(source lines 21-54): reject a missing download URL, reject a URL not
starting with `http`, otherwise build the result.  The adapters never
set a `size`, so `videoInfo.size || 0` is always `0`. -/
def assembleResult (info : VideoInfo) (now : Nat) : Except String DouyinResult :=
  if info.downloadUrl = "" then .error "无法获取视频下载地址"
  else if strStartsWith info.downloadUrl "http" = false then
    .error ("不支持的协议: " ++ info.downloadUrl)
  else
    .ok { name := jsOr info.title ("抖音视频_" ++ toString now)
          files := [{ name := sanitizeFilename info.filename
                      size := 0
                      req := { url := info.downloadUrl, headers := douyinHeaders } }]
          extra := { cover := info.cover
                     author := info.author
                     duration := info.duration
                     platform := "douyin" } }

/-- The entry point's `try`/`catch` (source lines 11-62) from the point
where the adapter outcomes are fixed: run the fallback, validate and
package, and wrap any error in the platform failure message. -/
def douyinEntryCore (adapters : List AdapterOutcome) (now : Nat) : Except String DouyinResult :=
  match parseWithFallback adapters with
  | .error e => .error ("抖音解析失败: " ++ e)
  | .ok info =>
    match assembleResult info now with
    | .error e => .error ("抖音解析失败: " ++ e)
    | .ok r => .ok r

/-- `const timeout = settings?.timeout || 30000` (source line 9):
an absent or falsy (`0`) timeout becomes 30000 ms. -/
def douyinTimeout (settingsTimeout : Option Nat) : Nat :=
  match settingsTimeout with
  | none => 30000
  | some t => if t = 0 then 30000 else t

/-- The whole entry point (source lines 6-63) with the network modelled
by oracles: `redirectNet` is the HEAD fetch outcome as a function of the
timeout actually used, and each adapter is a function of the resolved
URL and that same timeout.  This records how the single computed timeout
is threaded into the redirect check and into every adapter attempt. -/
def douyinEntry (settingsTimeout : Option Nat) (url : String)
    (redirectNet : Nat → Except String String)
    (adapters : List (String → Nat → AdapterOutcome))
    (now : Nat) : Except String DouyinResult :=
  let timeout := douyinTimeout settingsTimeout
  let finalUrl := (resolveRedirect url (redirectNet timeout)).1
  douyinEntryCore (adapters.map (fun p => p finalUrl timeout)) now

set_option maxRecDepth 4000

deriving instance DecidableEq for Except

theorem fallback_append_spec (pre : List AdapterOutcome) (r : VideoInfo)
    (post : List AdapterOutcome)
    (hpre : ∀ o ∈ pre, adapterFailed o = true) (hr : r.downloadUrl ≠ "") :
    parseWithFallback (pre ++ .ok r :: post) = .ok r ∧
      fallbackInvoked (pre ++ .ok r :: post) = pre.length + 1 := by
  induction pre with
  | nil =>
    simp [parseWithFallback, fallbackInvoked, hr]
  | cons o pre ih =>
    have ho : adapterFailed o = true := hpre o (by simp)
    have hrest : ∀ o' ∈ pre, adapterFailed o' = true :=
      fun o' h => hpre o' (by simp [h])
    obtain ⟨ih1, ih2⟩ := ih hrest
    cases o with
    | ok r' =>
      have hr' : r'.downloadUrl = "" := by simpa [adapterFailed] using ho
      simp [parseWithFallback, fallbackInvoked, hr', ih1, ih2]
      omega
    | error e =>
      simp [parseWithFallback, fallbackInvoked, ih1, ih2]
      omega

theorem fallback_error_iff (l : List AdapterOutcome) :
    parseWithFallback l = .error "所有解析源都失败了" ↔
      ∀ o ∈ l, adapterFailed o = true := by
  induction l with
  | nil => simp [parseWithFallback, adapterFailed]
  | cons o rest ih =>
    cases o with
    | ok r =>
      by_cases hr : r.downloadUrl = ""
      · simp [parseWithFallback, adapterFailed, hr, ih]
      · simp [parseWithFallback, adapterFailed, hr]
    | error e =>
      simp [parseWithFallback, adapterFailed, ih]

theorem fallback_error_unique (l : List AdapterOutcome) (e : String)
    (h : parseWithFallback l = .error e) : e = "所有解析源都失败了" := by
  induction l with
  | nil =>
    simp [parseWithFallback] at h
    exact h.symm
  | cons o rest ih =>
    cases o with
    | ok r =>
      by_cases hr : r.downloadUrl = ""
      · exact ih (by simpa [parseWithFallback, hr] using h)
      · simp [parseWithFallback, hr] at h
    | error e' =>
      exact ih (by simpa [parseWithFallback] using h)

theorem fallback_ok_nonempty (l : List AdapterOutcome) (r : VideoInfo)
    (h : parseWithFallback l = .ok r) : r.downloadUrl ≠ "" := by
  induction l with
  | nil => simp [parseWithFallback] at h
  | cons o rest ih =>
    cases o with
    | ok r' =>
      by_cases hr : r'.downloadUrl = ""
      · exact ih (by simpa [parseWithFallback, hr] using h)
      · simp [parseWithFallback, hr] at h
        subst h
        exact hr
    | error e =>
      exact ih (by simpa [parseWithFallback] using h)

theorem proto_error_ne_missing (u : String) :
    ("不支持的协议: " ++ u) ≠ "无法获取视频下载地址" := by
  intro h
  have h1 : ("不支持的协议: " ++ u).data.take 1 = "无法获取视频下载地址".data.take 1 := by
    rw [h]
  have h2 : (['不'] : List Char) = ['无'] := h1
  simp at h2

/-- C1: for every behaviour of the adapters, the first adapter outcome in
order whose record has a non-empty download URL is returned exactly, and
no later adapter is invoked; in particular with adapter 1 failing and
adapter 2 succeeding, the result is adapter 2's record and only the
first two adapters are invoked (adapter 3's call count is zero). -/
theorem fallback_first_success_wins :
    (∀ (pre : List AdapterOutcome) (r : VideoInfo) (post : List AdapterOutcome),
      (∀ o ∈ pre, adapterFailed o = true) → r.downloadUrl ≠ "" →
      parseWithFallback (pre ++ .ok r :: post) = .ok r ∧
        fallbackInvoked (pre ++ .ok r :: post) = pre.length + 1) ∧
    (∀ (e : String) (r2 : VideoInfo) (o3 : AdapterOutcome),
      r2.downloadUrl ≠ "" →
      parseWithFallback [.error e, .ok r2, o3] = .ok r2 ∧
        fallbackInvoked [.error e, .ok r2, o3] = 2) := by
  refine ⟨fun pre r post hpre hr => fallback_append_spec pre r post hpre hr, ?_⟩
  intro e r2 o3 hr2
  have h := fallback_append_spec [.error e] r2 [o3] (by simp [adapterFailed]) hr2
  simpa using h

theorem fallback_first_success_wins_witness :
    parseWithFallback [.error "boom", .ok ⟨"t", "http://u", "", "", 0, "f"⟩,
        .error "later"] = .ok ⟨"t", "http://u", "", "", 0, "f"⟩ ∧
      fallbackInvoked [.error "boom", .ok ⟨"t", "http://u", "", "", 0, "f"⟩,
        .error "later"] = 2 :=
  fallback_first_success_wins.2 "boom" ⟨"t", "http://u", "", "", 0, "f"⟩
    (.error "later") (by decide)

/-- C2: `parseWithFallback` raises an error exactly when every adapter
outcome fails (throws, or returns a record with an empty download URL);
mid-sequence a thrown error or an empty-URL record just advances the
loop, and the only error ever raised is the single aggregate message. -/
theorem fallback_error_characterisation :
    ∀ l : List AdapterOutcome,
      (parseWithFallback l = .error "所有解析源都失败了" ↔
        ∀ o ∈ l, adapterFailed o = true) ∧
      (∀ e, parseWithFallback l = .error e → e = "所有解析源都失败了") :=
  fun l => ⟨fallback_error_iff l, fun e h => fallback_error_unique l e h⟩

theorem fallback_error_characterisation_witness :
    parseWithFallback [.error "x", .ok ⟨"t", "", "", "", 0, "f"⟩] =
      .error "所有解析源都失败了" :=
  (fallback_error_characterisation _).1.mpr (by decide)

/-- C9: every record `parseWithFallback` returns normally has a
non-empty download URL, so the entry point's defensive
missing-download-URL branch can never produce its error on such a
record. -/
theorem fallback_postcondition_no_missing_url :
    ∀ (l : List AdapterOutcome) (r : VideoInfo) (now : Nat),
      parseWithFallback l = .ok r →
      r.downloadUrl ≠ "" ∧ assembleResult r now ≠ .error "无法获取视频下载地址" := by
  intro l r now h
  have hr := fallback_ok_nonempty l r h
  refine ⟨hr, ?_⟩
  unfold assembleResult
  rw [if_neg hr]
  by_cases hp : strStartsWith r.downloadUrl "http" = false
  · rw [if_pos hp]
    intro hcontra
    exact proto_error_ne_missing r.downloadUrl (Except.error.inj hcontra)
  · rw [if_neg hp]
    intro hcontra
    cases hcontra

theorem fallback_postcondition_no_missing_url_witness :
    ("http://u" : String) ≠ "" ∧
      assembleResult ⟨"t", "http://u", "", "", 0, "f"⟩ 0 ≠ .error "无法获取视频下载地址" :=
  fallback_postcondition_no_missing_url [.ok ⟨"t", "http://u", "", "", 0, "f"⟩]
    ⟨"t", "http://u", "", "", 0, "f"⟩ 0 (by decide)

/-- C5: `resolveRedirect` never raises (it is total into `String`):
an input not containing the short-link domain is returned unchanged with
no network call made, and when the HEAD fetch fails (network error,
timeout, abort) the original URL is returned. -/
theorem resolveRedirect_total_behaviour :
    (∀ (url : String) (net : Except String String),
      jsIncludes url "v.douyin.com" = false → resolveRedirect url net = (url, false)) ∧
    (∀ (url e : String), (resolveRedirect url (.error e)).1 = url) := by
  constructor
  · intro url net h
    simp [resolveRedirect, h]
  · intro url e
    by_cases h : jsIncludes url "v.douyin.com" = true
    · simp [resolveRedirect, h]
    · simp at h
      simp [resolveRedirect, h]

theorem resolveRedirect_total_behaviour_witness :
    resolveRedirect "https://example.com/x" (.ok "https://other/")
        = ("https://example.com/x", false) ∧
      (resolveRedirect "https://v.douyin.com/abc" (.error "timeout")).1
        = "https://v.douyin.com/abc" :=
  ⟨resolveRedirect_total_behaviour.1 "https://example.com/x" (.ok "https://other/")
      (by decide),
    resolveRedirect_total_behaviour.2 "https://v.douyin.com/abc" "timeout"⟩

/-- C10: an absent timeout setting, and equally the falsy value `0`, is
replaced by the default 30000 ms; the computed timeout is never `0`; and
the entry point threads this one computed value both into the redirect
HEAD fetch and into every adapter attempt. -/
theorem douyinTimeout_default :
    douyinTimeout none = 30000 ∧
    douyinTimeout (some 0) = 30000 ∧
    (∀ s, douyinTimeout s ≠ 0) ∧
    (∀ (s : Option Nat) (url : String) (rn : Nat → Except String String)
        (ads : List (String → Nat → AdapterOutcome)) (now : Nat),
      douyinEntry s url rn ads now =
        douyinEntryCore
          (ads.map (fun p =>
            p (resolveRedirect url (rn (douyinTimeout s))).1 (douyinTimeout s))) now) := by
  refine ⟨rfl, rfl, ?_, fun s url rn ads now => rfl⟩
  intro s
  match s with
  | none => simp [douyinTimeout]
  | some t =>
    by_cases ht : t = 0 <;> simp [douyinTimeout, ht]

theorem douyinTimeout_default_witness :
    douyinTimeout none = 30000 ∧ douyinTimeout (some 5) ≠ 0 :=
  ⟨douyinTimeout_default.1, douyinTimeout_default.2.2.1 (some 5)⟩

/-- C8: every adapter turns a non-2xx HTTP status into an error naming
the adapter and the status code; and adapter 3 succeeds exactly when the
body's `code` field equals 200 and its `url` field is non-empty — a 2xx
response whose body `code` differs from 200 raises its schema-mismatch
error. -/
theorem adapters_http_and_code_gate :
    (∀ (st : Nat) (d : API1Data) (now : Nat), httpOk st = false →
      parseWithAPI1 st d now = .error ("API1 HTTP " ++ toString st)) ∧
    (∀ (st : Nat) (d : API2Data) (now : Nat), httpOk st = false →
      parseWithAPI2 st d now = .error ("API2 HTTP " ++ toString st)) ∧
    (∀ (st : Nat) (d : API3Data) (now : Nat), httpOk st = false →
      parseWithAPI3 st d now = .error ("API3 HTTP " ++ toString st)) ∧
    (∀ (st : Nat) (d : API3Data) (now : Nat), httpOk st = true →
      (((parseWithAPI3 st d now).isOk = true) ↔ (d.code = 200 ∧ d.url ≠ ""))) ∧
    (∀ (st : Nat) (d : API3Data) (now : Nat), httpOk st = true → d.code ≠ 200 →
      parseWithAPI3 st d now = .error "API3返回数据格式异常") := by
  refine ⟨?_, ?_, ?_, ?_, ?_⟩
  · intro st d now h
    simp [parseWithAPI1, h]
  · intro st d now h
    simp [parseWithAPI2, h]
  · intro st d now h
    simp [parseWithAPI3, h]
  · intro st d now h
    by_cases hc : d.code = 200 ∧ d.url ≠ ""
    · simp [parseWithAPI3, h, hc, Except.isOk, Except.toBool]
    · simp [parseWithAPI3, h, hc, Except.isOk, Except.toBool]
  · intro st d now h hc
    have : ¬ (d.code = 200 ∧ d.url ≠ "") := fun hx => hc hx.1
    simp [parseWithAPI3, h, this]

theorem adapters_http_and_code_gate_witness :
    parseWithAPI1 404 ⟨"u", "", "", "", "", "", "", "", 0⟩ 7
        = .error "API1 HTTP 404" ∧
      parseWithAPI2 500 ⟨"u", "", "", "", 0⟩ 7 = .error "API2 HTTP 500" ∧
      parseWithAPI3 301 ⟨200, "u", "", "", ""⟩ 7 = .error "API3 HTTP 301" ∧
      (parseWithAPI3 200 ⟨200, "http://u", "t", "", ""⟩ 7).isOk = true ∧
      parseWithAPI3 200 ⟨0, "http://u", "t", "", ""⟩ 7
        = .error "API3返回数据格式异常" :=
  ⟨adapters_http_and_code_gate.1 404 ⟨"u", "", "", "", "", "", "", "", 0⟩ 7 (by decide),
    adapters_http_and_code_gate.2.1 500 ⟨"u", "", "", "", 0⟩ 7 (by decide),
    adapters_http_and_code_gate.2.2.1 301 ⟨200, "u", "", "", ""⟩ 7 (by decide),
    (adapters_http_and_code_gate.2.2.2.1 200 ⟨200, "http://u", "t", "", ""⟩ 7
        (by decide)).mpr (by decide),
    adapters_http_and_code_gate.2.2.2.2 200 ⟨0, "http://u", "t", "", ""⟩ 7
      (by decide) (by decide)⟩

/-- C3 counterexample: a record whose download URL's scheme is neither
`http` nor `https` (it is `httpx`, so the URL has neither the prefix
`http://` nor `https://`) passes the validation step — the pipeline
succeeds instead of failing with an invalid-protocol error, because the
code only tests `startsWith('http')`. -/
theorem protocol_gate_counterexample :
    strStartsWith "httpx://x/y.mp4" "http://" = false ∧
    strStartsWith "httpx://x/y.mp4" "https://" = false ∧
    (assembleResult ⟨"T", "httpx://x/y.mp4", "", "", 0, "f.mp4"⟩ 0).isOk = true ∧
    (douyinEntryCore [.ok ⟨"T", "httpx://x/y.mp4", "", "", 0, "f.mp4"⟩] 0).isOk = true := by
  decide

/-- C3 (amended): the validation step fails with the invalid-protocol
error exactly for download URLs that do not start with the literal
`http` (so `ftp://x/y.mp4` fails the whole pipeline, but a non-HTTP(S)
scheme such as `httpx://` passes the gate). -/
theorem protocol_gate_startswith_http :
    (∀ (info : VideoInfo) (now : Nat), info.downloadUrl ≠ "" →
      strStartsWith info.downloadUrl "http" = false →
      assembleResult info now = .error ("不支持的协议: " ++ info.downloadUrl)) ∧
    (∀ now : Nat,
      douyinEntryCore [.ok ⟨"T", "ftp://x/y.mp4", "", "", 0, "f.mp4"⟩] now
        = .error "抖音解析失败: 不支持的协议: ftp://x/y.mp4") := by
  constructor
  · intro info now h1 h2
    unfold assembleResult
    rw [if_neg h1, if_pos h2]
  · intro now
    rfl

theorem protocol_gate_startswith_http_witness :
    assembleResult ⟨"T", "ftp://x/y.mp4", "", "", 0, "f.mp4"⟩ 0
      = .error "不支持的协议: ftp://x/y.mp4" :=
  protocol_gate_startswith_http.1 ⟨"T", "ftp://x/y.mp4", "", "", 0, "f.mp4"⟩ 0
    (by decide) (by decide)

/-- C6 counterexample: with an empty title the assembled name is
`抖音视频_<timestamp>`, not the literal `Video_<timestamp>` the claim
states: at timestamp 42 the name is `抖音视频_42`, which differs from
`Video_42`. -/
theorem result_name_fallback_counterexample :
    (assembleResult ⟨"", "https://a/b.mp4", "", "", 0, "f.mp4"⟩ 42).map DouyinResult.name
        = .ok "抖音视频_42" ∧
      ("抖音视频_42" : String) ≠ "Video_42" := by
  decide

/-- C6 (amended): on success, a record with an empty/absent title yields
the name `抖音视频_<timestamp>` (the platform's label followed by the
current timestamp) rather than `Video_<timestamp>`; otherwise the name
equals the record's title. -/
theorem result_name_fallback :
    ∀ (info : VideoInfo) (now : Nat) (r : DouyinResult),
      assembleResult info now = .ok r →
      r.name = if info.title = "" then "抖音视频_" ++ toString now else info.title := by
  intro info now r h
  unfold assembleResult at h
  by_cases h1 : info.downloadUrl = ""
  · rw [if_pos h1] at h
    cases h
  · rw [if_neg h1] at h
    by_cases h2 : strStartsWith info.downloadUrl "http" = false
    · rw [if_pos h2] at h
      cases h
    · rw [if_neg h2] at h
      have hr := Except.ok.inj h
      rw [← hr]
      simp [jsOr]

theorem result_name_fallback_witness :
    (⟨"抖音视频_3",
        [⟨"f", 0, ⟨"http://u", douyinHeaders⟩⟩],
        ⟨"", "", 0, "douyin"⟩⟩ : DouyinResult).name
      = if ("" : String) = "" then "抖音视频_" ++ toString 3 else "" :=
  result_name_fallback ⟨"", "http://u", "", "", 0, "f"⟩ 3
    ⟨"抖音视频_3", [⟨"f", 0, ⟨"http://u", douyinHeaders⟩⟩], ⟨"", "", 0, "douyin"⟩⟩
    (by decide)

/-- C7: with adapter 1 stubbed to a 200 response whose body carries
`url = "https://cdn.example/v.mp4"` and `title = "T"`, and whatever the
later adapters would do, the entry point returns a Resolution Outcome
with name `T`, exactly one file descriptor whose request URL is the
stubbed download URL and whose headers are the fixed set (mobile
User-Agent, douyin Referer, video Accept, Accept-Language, Range), and
`extra.platform = "douyin"`. -/
theorem entry_success_shape :
    ∀ o2 o3 : AdapterOutcome,
      douyinEntryCore
          [parseWithAPI1 200 ⟨"https://cdn.example/v.mp4", "", "T", "", "", "", "", "", 0⟩ 99,
            o2, o3] 5
        = .ok { name := "T"
                files := [{ name := "douyin_99.mp4"
                            size := 0
                            req := { url := "https://cdn.example/v.mp4"
                                     headers :=
                                      [("User-Agent", "Mozilla/5.0 (iPhone; CPU iPhone OS 15_0 like Mac OS X) AppleWebKit/605.1.15 (KHTML, like Gecko) Version/15.0 Mobile/15E148 Safari/604.1"),
                                       ("Referer", "https://www.douyin.com/"),
                                       ("Accept", "video/mp4,video/webm,video/*;q=0.9,*/*;q=0.8"),
                                       ("Accept-Language", "zh-CN,zh;q=0.9,en;q=0.8"),
                                       ("Range", "bytes=0-")] } }]
                extra := { cover := "", author := "", duration := 0, platform := "douyin" } } := by
  intro o2 o3
  rfl

theorem collapseWsAux_cons_ws_true (a : Char) (l : List Char) (hw : isJsWs a = true) :
    collapseWsAux true (a :: l) = collapseWsAux true l := by
  simp [collapseWsAux, hw]

theorem collapseWsAux_cons_ws_false (a : Char) (l : List Char) (hw : isJsWs a = true) :
    collapseWsAux false (a :: l) = ' ' :: collapseWsAux true l := by
  simp [collapseWsAux, hw]

theorem collapseWsAux_cons_nws (b : Bool) (a : Char) (l : List Char) (hw : isJsWs a = false) :
    collapseWsAux b (a :: l) = a :: collapseWsAux false l := by
  simp [collapseWsAux, hw]

theorem mem_collapseWsAux {c : Char} :
    ∀ (b : Bool) (l : List Char), c ∈ collapseWsAux b l → c = ' ' ∨ c ∈ l := by
  intro b l
  induction l generalizing b with
  | nil =>
    intro h
    simp [collapseWsAux] at h
  | cons a l ih =>
    intro h
    by_cases hw : isJsWs a = true
    · cases b with
      | true =>
        rw [collapseWsAux_cons_ws_true a l hw] at h
        rcases ih true h with h' | h'
        · exact Or.inl h'
        · exact Or.inr (List.mem_cons_of_mem a h')
      | false =>
        rw [collapseWsAux_cons_ws_false a l hw, List.mem_cons] at h
        rcases h with h | h
        · exact Or.inl h
        · rcases ih true h with h' | h'
          · exact Or.inl h'
          · exact Or.inr (List.mem_cons_of_mem a h')
    · rw [Bool.not_eq_true] at hw
      rw [collapseWsAux_cons_nws b a l hw, List.mem_cons] at h
      rcases h with h | h
      · exact Or.inr (by simp [h])
      · rcases ih false h with h' | h'
        · exact Or.inl h'
        · exact Or.inr (List.mem_cons_of_mem a h')

/-- C4: `sanitizeFilename` on `'a<b>c:d"e/f\g|h?i*j   k'` yields
`"a_b_c_d_e_f_g_h_i_j k"` (each illegal character replaced by `_`, the
whitespace run collapsed to one space); a 300-character input yields
exactly 200 characters; leading/trailing whitespace is trimmed; and for
every input the output has at most 200 characters and contains no
character from the illegal set. -/
theorem sanitizeFilename_spec :
    sanitizeFilename "a<b>c:d\"e/f\\g|h?i*j   k" = "a_b_c_d_e_f_g_h_i_j k" ∧
    sanitizeFilename (String.mk (List.replicate 300 'a'))
      = String.mk (List.replicate 200 'a') ∧
    (sanitizeFilename (String.mk (List.replicate 300 'a'))).length = 200 ∧
    sanitizeFilename "  a \t\n b  " = "a b" ∧
    (∀ s : String, (sanitizeFilename s).length ≤ 200) ∧
    (∀ (s : String) (c : Char),
      c ∈ (sanitizeFilename s).data → isIllegalFilenameChar c = false) := by
  refine ⟨by decide, by decide, by decide, by decide, ?_, ?_⟩
  · intro s
    have key : ∀ l : List Char, (String.mk (l.take 200)).length ≤ 200 := by
      intro l
      show (l.take 200).length ≤ 200
      rw [List.length_take]
      exact Nat.min_le_left _ _
    exact key _
  · intro s c hc
    have hc2 : c ∈ (trimRightL
        ((collapseWsAux false
          (s.data.map (fun a => if isIllegalFilenameChar a then '_' else a))).dropWhile
            isJsWs)).take 200 := hc
    have h1 := List.take_subset _ _ hc2
    unfold trimRightL at h1
    rw [List.mem_reverse] at h1
    have h2 := (List.dropWhile_suffix isJsWs).subset h1
    rw [List.mem_reverse] at h2
    have h3 := (List.dropWhile_suffix isJsWs).subset h2
    rcases mem_collapseWsAux false _ h3 with hsp | hmem
    · rw [hsp]
      decide
    · rw [List.mem_map] at hmem
      obtain ⟨a, _, ha⟩ := hmem
      by_cases hia : isIllegalFilenameChar a
      · rw [if_pos hia] at ha
        rw [← ha]
        decide
      · rw [if_neg hia] at ha
        rw [← ha]
        simpa using hia

theorem sanitizeFilename_spec_witness :
    (sanitizeFilename "x<y>z").length ≤ 200 ∧
      isIllegalFilenameChar '_' = false :=
  ⟨sanitizeFilename_spec.2.2.2.2.1 "x<y>z",
    sanitizeFilename_spec.2.2.2.2.2 "x<y>z" '_' (by decide)⟩
